import Mathlib

/-!
Shallow embedding of the seat-locking and inventory core of the ticket
system (`src/modules/tickets/tickets.service.ts`, `src/config/redis.ts`,
and the `getAvailability` query of the events module).

The shared Redis store is modelled as explicit association-list state
(`RedisState`), the relational store as a `Db` value, and each service
function as a pure state-passing function returning
`Except SvcError α × RedisState × Db`.  Nondeterministic inputs of the
original code (the current time `Date.now()`, the fresh UUID `lockId`)
are passed as explicit arguments.
-/

namespace TicketSystem

/-- Error outcomes of the service layer.  The first seven constructors are
the tagged `AppError` codes thrown by the examined code; `jsTypeError`
models the untagged runtime `TypeError` raised by a property access on
`undefined` (reachable via `seats[0]` on an empty seat list). -/
inductive SvcError where
  | SESSION_NOT_FOUND
  | SALE_NOT_STARTED
  | SALE_ENDED
  | INVALID_SEATS
  | EXCEED_LIMIT
  | SEAT_LOCKED
  | LOCK_NOT_FOUND
  | jsTypeError
  deriving DecidableEq, Repr

/-- Value stored at `seat:lock:&lt;seatId&gt;`: the JSON blob
`{lockId, userId, sessionId}` written by `redis.set(..., 'NX')`. -/
structure SeatLockEntry where
  lockId : String
  userId : String
  sessionId : Nat
  deriving DecidableEq, Repr

/-- Field value of the `user:locks:&lt;userId&gt;` hash under field `lockId`:
the JSON blob `{sessionId, seatIds, expiresAt}`. -/
structure UserLockEntry where
  sessionId : Nat
  seatIds : List Nat
  expiresAt : Int
  deriving DecidableEq, Repr

/-- The shared Redis store: per-seat lock entries keyed by seat id, and
per-user lock-index hash fields keyed by (userId, lockId). -/
structure RedisState where
  seatLocks : List (Nat × SeatLockEntry)
  userLocks : List ((String × String) × UserLockEntry)
  deriving DecidableEq, Repr

/-- Association-list lookup (first binding wins, mirroring a key-value
store where each key has at most one binding). -/
def alookup {κ α : Type} [DecidableEq κ] (k : κ) : List (κ × α) → Option α
  | [] => none
  | (k2, v) :: rest => if k2 = k then some v else alookup k rest

/-- Association-list key deletion (`redis.del` / `redis.hdel`). -/
def aerase {κ α : Type} [DecidableEq κ] (k : κ) : List (κ × α) → List (κ × α)
  | [] => []
  | (k2, v) :: rest => if k2 = k then aerase k rest else (k2, v) :: aerase k rest

/-! ### AtomicInventoryStore (`src/config/redis.ts`) -/

/-- Model of `redisUtils.decrementStock`: the Lua script
`current = tonumber(GET key or 0); if current >= qty then return DECRBY key qty else return -1`.
The counter is `Option Int` (`none` = key absent, read as 0 by `tonumber(... or 0)`);
the result is the returned integer paired with the store after the call. -/
def decrementStock (store : Option Int) (qty : Int) : Int × Option Int :=
  let current := store.getD 0
  if qty ≤ current then (current - qty, some (current - qty))
  else (-1, store)

/-- Model of `redisUtils.incrementStock` (`INCRBY`). -/
def incrementStock (store : Option Int) (qty : Int) : Int × Option Int :=
  (store.getD 0 + qty, some (store.getD 0 + qty))

/-- Folding a sequence of `decrementStock` calls over the counter,
keeping only the stored value. -/
def applyDecrements (store : Option Int) (qs : List Int) : Option Int :=
  qs.foldl (fun s q => (decrementStock s q).2) store

/-! ### Sale-window validation (lines 34-42 of `lockSeats`) -/

/-- Model of the sale-window validation in `lockSeats`:
`if (now < saleStartAt) throw SALE_NOT_STARTED;`
`if (saleEndAt && now > saleEndAt) throw SALE_ENDED` — note the strict
`>` on the end bound, so a call at exactly `saleEndAt` passes. -/
def saleWindowCheck (now saleStartAt : Int) (saleEndAt : Option Int) : Option SvcError :=
  if now < saleStartAt then some .SALE_NOT_STARTED
  else
    match saleEndAt with
    | some saleEnd => if saleEnd < now then some .SALE_ENDED else none
    | none => none

/-! ### Persistent data model -/

/-- Ticket-type columns selected by the seat query in `lockSeats`. -/
structure TicketTypeInfo where
  id : Nat
  name : String
  price : Int
  maxPerOrder : Nat
  deriving DecidableEq, Repr

/-- Persisted seat-row status. -/
inductive SeatStatus where
  | available
  | locked
  | sold
  deriving DecidableEq, Repr

/-- Persisted seat row (with its owning ticket type and session inlined,
as produced by the Prisma `include`). -/
structure DbSeat where
  id : Nat
  rowName : String
  seatNumber : String
  sessionId : Nat
  ticketType : TicketTypeInfo
  status : SeatStatus
  lockedBy : Option String
  lockedUntil : Option Int
  deriving DecidableEq, Repr

/-- Ticket-type columns selected by `getAvailability`. -/
structure TicketTypeCounters where
  id : Nat
  name : String
  price : Int
  totalQuantity : Int
  reservedQuantity : Int
  maxPerOrder : Nat
  deriving DecidableEq, Repr

/-- Persisted session row with its owning event's sale window and its
ticket types inlined. -/
structure DbSession where
  id : Nat
  saleStartAt : Int
  saleEndAt : Option Int
  ticketTypes : List TicketTypeCounters
  deriving DecidableEq, Repr

/-- The persistent store. -/
structure Db where
  sessions : List DbSession
  seats : List DbSeat
  deriving DecidableEq, Repr

/-! ### AvailabilityCalculator (`getAvailability` of the events module) -/

/-- One row of the availability view. -/
structure AvailabilityRow where
  ticketTypeId : Nat
  name : String
  price : Int
  total : Int
  reserved : Int
  available : Int
  maxPerOrder : Nat
  deriving DecidableEq, Repr

/-- The per-ticket-type availability computation of `getAvailability`. -/
def availRow (tt : TicketTypeCounters) : AvailabilityRow :=
  { ticketTypeId := tt.id
    name := tt.name
    price := tt.price
    total := tt.totalQuantity
    reserved := tt.reservedQuantity
    available := tt.totalQuantity - tt.reservedQuantity
    maxPerOrder := tt.maxPerOrder }

/-- Model of `getAvailability(sessionId)`: looks the session up with its
ticket types and maps `availRow` over them.  It reads only the persisted
counters; the Redis lock state is not an input. -/
def getAvailability (db : Db) (sessionId : Nat) : Except SvcError (List AvailabilityRow) :=
  match db.sessions.find? (fun s => s.id == sessionId) with
  | none => .error .SESSION_NOT_FOUND
  | some session => .ok (session.ticketTypes.map availRow)

/-! ### SeatSelector (`findConsecutiveSeats`) -/

/-- Seat fields used by the auto-select pool. -/
structure PoolSeat where
  id : Nat
  rowName : String
  seatNumber : String
  deriving DecidableEq, Repr

/-- Digit prefix of a character list. -/
def takeDigits (l : List Char) : List Char := l.takeWhile Char.isDigit

/-- Decimal value of a digit list. -/
def digitsToNat (l : List Char) : Nat := l.foldl (fun acc c => acc * 10 + (c.toNat - 48)) 0

/-- Model of JavaScript `parseInt(s, 10)` for strings without leading
whitespace: an optional sign followed by a maximal digit prefix; `none`
models `NaN` (no digit found). -/
def jsParseInt (s : String) : Option Int :=
  match s.data with
  | [] => none
  | c :: rest =>
    if c = '-' then
      match takeDigits rest with
      | [] => none
      | ds => some (-(digitsToNat ds : Int))
    else if c = '+' then
      match takeDigits rest with
      | [] => none
      | ds => some ((digitsToNat ds : Int))
    else
      match takeDigits (c :: rest) with
      | [] => none
      | ds => some ((digitsToNat ds : Int))

/-- Numeric sort key of a pool seat, `parseInt(seatNumber)`.  The `NaN`
case defaults to 0 here; the JS comparator contract is undefined for
`NaN` results, and every seat pool considered below has purely numeric
seat labels, where this model is exact. -/
def seatKey (s : PoolSeat) : Int := (jsParseInt s.seatNumber).getD 0

/-- Stable insertion of a seat into a list sorted by `seatKey`. -/
def insertBySeatNumber (x : PoolSeat) : List PoolSeat → List PoolSeat
  | [] => [x]
  | y :: rest =>
    if seatKey y ≤ seatKey x then y :: insertBySeatNumber x rest
    else x :: y :: rest

/-- Stable sort by ascending numeric seat number, modelling
`rowSeats.sort((a, b) =&gt; parseInt(a.seatNumber) - parseInt(b.seatNumber))`. -/
def sortBySeatNumber : List PoolSeat → List PoolSeat
  | [] => []
  | x :: rest => insertBySeatNumber x (sortBySeatNumber rest)

/-- Appends a seat to its row's group, or starts a new group at the end —
the `rowMap.get(...) || []; row.push(seat); rowMap.set(...)` step.  JS
`Map` iterates in key-insertion order, which this list preserves. -/
def pushRow (rowName : String) (seat : PoolSeat) :
    List (String × List PoolSeat) → List (String × List PoolSeat)
  | [] => [(rowName, [seat])]
  | (r, ss) :: rest =>
    if r = rowName then (r, ss ++ [seat]) :: rest
    else (r, ss) :: pushRow rowName seat rest

/-- Groups the pool by row label in first-encounter order. -/
def groupByRow (seats : List PoolSeat) : List (String × List PoolSeat) :=
  seats.foldl (fun m s => pushRow s.rowName s m) []

/-- The inner consecutive check of the window starting at `i`:
`parseInt(rowSeats[i+j+1]) == parseInt(rowSeats[i+j]) + 1` for every
`j &lt; quantity - 1`. -/
def windowConsecutive (keys : List Int) (i quantity : Nat) : Bool :=
  (List.range (quantity - 1)).all fun j => keys.getD (i + j + 1) 0 == keys.getD (i + j) 0 + 1

/-- The per-row window scan: the first `i` with
`0 ≤ i ≤ rowSeats.length - quantity` whose window is consecutive yields
`rowSeats.slice(i, i + quantity)`. -/
def findWindow (sorted : List PoolSeat) (quantity : Nat) : Option (List PoolSeat) :=
  (List.range (sorted.length + 1 - quantity)).findSome? fun i =>
    if windowConsecutive (sorted.map seatKey) i quantity then
      some ((sorted.drop i).take quantity)
    else none

/-- Model of `findConsecutiveSeats(seats, quantity)`: group by row in
first-encounter order, sort each row numerically, return the first
consecutive window found scanning rows in that order, and fall back to
`seats.slice(0, quantity)` when no row has one. -/
def findConsecutiveSeats (seats : List PoolSeat) (quantity : Nat) : List PoolSeat :=
  match (groupByRow seats).findSome? (fun rw => findWindow (sortBySeatNumber rw.2) quantity) with
  | some w => w
  | none => seats.take quantity

/-! ### SeatLockManager (`lockSeats` / `unlockSeats`) -/

/-- Configured hold duration (`config.ticket.seatLockDurationSeconds`,
default 600). -/
def lockDurationSeconds : Int := 600

/-- The seat query of `lockSeats` (step 2): seats whose id is in
`seatIds` and whose ticket type belongs to `sessionId`, in database
order. -/
def loadSeats (db : Db) (sessionId : Nat) (seatIds : List Nat) : List DbSeat :=
  db.seats.filter (fun s => seatIds.contains s.id && s.sessionId == sessionId)

/-- Display projection of a loaded seat used in the lock receipt. -/
structure SeatDisplay where
  id : Nat
  rowName : String
  seatNumber : String
  ticketTypeId : Nat
  ticketTypeName : String
  price : Int
  deriving DecidableEq, Repr

/-- Builds the receipt entry for one seat. -/
def seatDisplay (s : DbSeat) : SeatDisplay :=
  { id := s.id
    rowName := s.rowName
    seatNumber := s.seatNumber
    ticketTypeId := s.ticketType.id
    ticketTypeName := s.ticketType.name
    price := s.ticketType.price }

/-- The lock receipt returned by `lockSeats`. -/
structure LockResult where
  lockId : String
  seats : List SeatDisplay
  expiresAt : Int
  deriving DecidableEq, Repr

/-- Step 4 of `lockSeats`: the per-seat `SET ... NX` loop.  Returns
`(completed, seat-lock store after the loop, lockedSeats)`.  For each
seat: if no entry exists, one is created for (`lockId`, `userId`) and the
seat id is appended to `lockedSeats`; if an entry exists and names the
same user, the seat is skipped (already held); if it names a different
user, the loop stops with `completed = false` (the `SEAT_LOCKED` throw). -/
def lockLoop (userId : String) (sessionId : Nat) (lockId : String) :
    List DbSeat → List (Nat × SeatLockEntry) → List Nat →
    Bool × List (Nat × SeatLockEntry) × List Nat
  | [], locks, acc => (true, locks, acc)
  | seat :: rest, locks, acc =>
    match alookup seat.id locks with
    | none =>
        lockLoop userId sessionId lockId rest
          ((seat.id, { lockId := lockId, userId := userId, sessionId := sessionId }) :: locks)
          (acc ++ [seat.id])
    | some existing =>
        if existing.userId = userId then
          lockLoop userId sessionId lockId rest locks acc
        else
          (false, locks, acc)

/-- The rollback loop of the `catch` block: deletes the `seat:lock` entry
of every seat in `lockedSeats`, in order. -/
def rollbackLocks : List Nat → List (Nat × SeatLockEntry) → List (Nat × SeatLockEntry)
  | [], locks => locks
  | sid :: rest, locks => rollbackLocks rest (aerase sid locks)

/-- Step 5 of `lockSeats`: `prisma.seat.updateMany` setting the rows of
the newly locked seats to status `locked` with owner and expiry. -/
def applyLockUpdate (lockedSeats : List Nat) (userId : String) (expiresAt : Int)
    (seats : List DbSeat) : List DbSeat :=
  seats.map fun s =>
    if lockedSeats.contains s.id then
      { s with status := .locked, lockedBy := some userId, lockedUntil := some expiresAt }
    else s

/-- Step 6 of `lockSeats`: `redis.hset(user:locks:userId, lockId, blob)`,
which overwrites any previous field of the same name. -/
def hsetUserLock (userId lockId : String) (entry : UserLockEntry)
    (ul : List ((String × String) × UserLockEntry)) :
    List ((String × String) × UserLockEntry) :=
  ((userId, lockId), entry) :: aerase (userId, lockId) ul

/-- Steps 4-6 of `lockSeats`, after all validations passed: run the lock
loop; on completion persist the seat rows, write the user-lock index
entry and return the receipt; on abort delete the entries created by
this call and fail `SEAT_LOCKED`. -/
def lockAttempt (db : Db) (st : RedisState) (userId : String) (sessionId : Nat)
    (seatIds : List Nat) (expiresAt : Int) (lockId : String) (seats : List DbSeat) :
    Except SvcError LockResult × RedisState × Db :=
  let r := lockLoop userId sessionId lockId seats st.seatLocks []
  if r.1 then
    (.ok { lockId := lockId, seats := seats.map seatDisplay, expiresAt := expiresAt },
     { seatLocks := r.2.1,
       userLocks := hsetUserLock userId lockId
         { sessionId := sessionId, seatIds := seatIds, expiresAt := expiresAt } st.userLocks },
     { db with seats := applyLockUpdate r.2.2 userId expiresAt db.seats })
  else
    (.error .SEAT_LOCKED,
     { seatLocks := rollbackLocks r.2.2 r.2.1, userLocks := st.userLocks },
     db)

/-- Steps 2-6 of `lockSeats` applied to the loaded seat list: the
`seats.length != seatIds.length` check, then the `seats[0]` access of the
`maxPerOrder` check (a `TypeError` on the empty list), then the limit
check, then the lock attempt. -/
def lockSeatsChecked (db : Db) (st : RedisState) (userId : String) (sessionId : Nat)
    (seatIds : List Nat) (expiresAt : Int) (lockId : String) (seats : List DbSeat) :
    Except SvcError LockResult × RedisState × Db :=
  if seats.length ≠ seatIds.length then (.error .INVALID_SEATS, st, db)
  else
    match seats with
    | [] => (.error .jsTypeError, st, db)
    | seat0 :: _ =>
      if seat0.ticketType.maxPerOrder < seatIds.length then (.error .EXCEED_LIMIT, st, db)
      else lockAttempt db st userId sessionId seatIds expiresAt lockId seats

/-- Model of `lockSeats(input)`: session lookup, sale-window validation,
then `lockSeatsChecked` on the loaded seats, with the expiry computed as
`now + LOCK_DURATION * 1000` milliseconds. -/
def lockSeats (db : Db) (st : RedisState) (now : Int) (lockId : String)
    (userId : String) (sessionId : Nat) (seatIds : List Nat) :
    Except SvcError LockResult × RedisState × Db :=
  match db.sessions.find? (fun s => s.id == sessionId) with
  | none => (.error .SESSION_NOT_FOUND, st, db)
  | some session =>
    match saleWindowCheck now session.saleStartAt session.saleEndAt with
    | some e => (.error e, st, db)
    | none =>
      lockSeatsChecked db st userId sessionId seatIds
        (now + lockDurationSeconds * 1000) lockId (loadSeats db sessionId seatIds)

/-- Step 2 of `unlockSeats`: for each seat of the index entry, delete its
`seat:lock` entry only when it names both the caller and this lockId. -/
def releaseLoop (userId lockId : String) :
    List Nat → List (Nat × SeatLockEntry) → List (Nat × SeatLockEntry)
  | [], locks => locks
  | sid :: rest, locks =>
    match alookup sid locks with
    | none => releaseLoop userId lockId rest locks
    | some entry =>
      if entry.userId = userId ∧ entry.lockId = lockId then
        releaseLoop userId lockId rest (aerase sid locks)
      else
        releaseLoop userId lockId rest locks

/-- Step 3 of `unlockSeats`: `prisma.seat.updateMany` reverting to
`available` the named seats whose `lockedBy` is the caller. -/
def applyUnlockUpdate (seatIds : List Nat) (userId : String)
    (seats : List DbSeat) : List DbSeat :=
  seats.map fun s =>
    if seatIds.contains s.id && s.lockedBy == some userId then
      { s with status := .available, lockedUntil := none, lockedBy := none }
    else s

/-- Model of `unlockSeats(input)`: read the user-lock index entry for
(`userId`, `lockId`) — missing fails `LOCK_NOT_FOUND` — then run the
owner-checked release loop, revert the seat rows, and delete the index
entry. -/
def unlockSeats (db : Db) (st : RedisState) (userId : String) (lockId : String) :
    Except SvcError Unit × RedisState × Db :=
  match alookup (userId, lockId) st.userLocks with
  | none => (.error .LOCK_NOT_FOUND, st, db)
  | some entry =>
    (.ok (),
     { seatLocks := releaseLoop userId lockId entry.seatIds st.seatLocks,
       userLocks := aerase (userId, lockId) st.userLocks },
     { db with seats := applyUnlockUpdate entry.seatIds userId db.seats })

/-! ### Loop invariant of the acquisition loop -/

/-- Invariant of `lockLoop` relative to the seat-lock store `locks0` at
call entry: every seat id in `lockedSeats` (`acc`) had no entry at entry
and now holds the entry created by this call, and every other key is
untouched. -/
def LoopInv (userId : String) (sessionId : Nat) (lockId : String)
    (locks0 locks : List (Nat × SeatLockEntry)) (acc : List Nat) : Prop :=
  ∀ k : Nat,
    (k ∈ acc →
      alookup k locks0 = none ∧
      alookup k locks =
        some { lockId := lockId, userId := userId, sessionId := sessionId }) ∧
    (k ∉ acc → alookup k locks = alookup k locks0)

/-! ### Concrete stores used by witnesses and counterexamples -/

/-- Ticket type with `maxPerOrder = 4`, mirroring the test fixture. -/
def ttA : TicketTypeInfo := ⟨1, "VIP", 5800, 4⟩

/-- Ticket type with `maxPerOrder = 1`. -/
def ttSmall : TicketTypeInfo := ⟨1, "VIP", 5800, 1⟩

/-- Session 1: sale window start 0, end 100, one ticket type with
total 100 and reserved 30. -/
def sessA : DbSession := ⟨1, 0, some 100, [⟨1, "VIP", 5800, 100, 30, 4⟩]⟩

/-- Seat A1 of session 1, free. -/
def seatA1 : DbSeat := ⟨1, "A", "1", 1, ttA, .available, none, none⟩

/-- Seat A2 of session 1, free. -/
def seatA2 : DbSeat := ⟨2, "A", "2", 1, ttA, .available, none, none⟩

/-- Database with session 1 and free seats A1, A2. -/
def dbA : Db := ⟨[sessA], [seatA1, seatA2]⟩

/-- Database like `dbA` but with `maxPerOrder = 1`. -/
def dbSmall : Db :=
  ⟨[sessA], [⟨1, "A", "1", 1, ttSmall, .available, none, none⟩,
             ⟨2, "A", "2", 1, ttSmall, .available, none, none⟩]⟩

/-- Empty shared store. -/
def stEmpty : RedisState := ⟨[], []⟩

/-- Seat-lock entry held by a different user `v1`. -/
def otherEntry : SeatLockEntry := ⟨"LX", "v1", 1⟩

/-- Store where seat 2 is locked by the other user `v1`. -/
def stOther : RedisState := ⟨[(2, otherEntry)], []⟩

/-- Seat-lock entry held by `u1` under lock `L0`. -/
def ownEntry : SeatLockEntry := ⟨"L0", "u1", 1⟩

/-- Store where `u1` already holds seats 1 and 2 under lock `L0`. -/
def stOwn : RedisState := ⟨[(1, ownEntry), (2, ownEntry)], []⟩

/-- User-lock index entry for seats 1 and 2. -/
def idxEntry : UserLockEntry := ⟨1, [1, 2], 600100⟩

/-- Store with a live user-lock index entry (`u1`, `L0`). -/
def stIdx : RedisState := ⟨[(1, ownEntry), (2, ownEntry)], [(("u1", "L0"), idxEntry)]⟩

/-- Seat 1 as persisted after a first, still-live lock by `u1`. -/
def seatHeld : DbSeat := ⟨1, "A", "1", 1, ttA, .locked, some "u1", some 600100⟩

/-- Database for the re-lock scenario: seat 1 locked by `u1`. -/
def dbHeld : Db := ⟨[sessA], [seatHeld]⟩

/-- Seat-lock entry of the original lock `L1` held by `u1`. -/
def heldEntry : SeatLockEntry := ⟨"L1", "u1", 1⟩

/-- Index entry of the original lock `L1`. -/
def idxL1 : UserLockEntry := ⟨1, [1], 600100⟩

/-- Store for the re-lock scenario: seat 1 held under `L1`, index entry
(`u1`, `L1`) live. -/
def stHeld : RedisState := ⟨[(1, heldEntry)], [(("u1", "L1"), idxL1)]⟩

/-- Row A with seats numbered 1 through 10, all free. -/
def rowA10 : List PoolSeat :=
  [⟨1, "A", "1"⟩, ⟨2, "A", "2"⟩, ⟨3, "A", "3"⟩, ⟨4, "A", "4"⟩, ⟨5, "A", "5"⟩,
   ⟨6, "A", "6"⟩, ⟨7, "A", "7"⟩, ⟨8, "A", "8"⟩, ⟨9, "A", "9"⟩, ⟨10, "A", "10"⟩]

/-!
## Theorems

Helper lemmas about the association-list store and the acquisition loop,
followed by one theorem per claim.
-/

theorem alookup_cons {κ α : Type} [DecidableEq κ] (k k2 : κ) (v : α) (l : List (κ × α)) :
    alookup k ((k2, v) :: l) = if k2 = k then some v else alookup k l := rfl

theorem alookup_aerase {κ α : Type} [DecidableEq κ] (k k2 : κ) (l : List (κ × α)) :
    alookup k2 (aerase k l) = if k2 = k then none else alookup k2 l := by
  induction l with
  | nil => simp [aerase, alookup]
  | cons p rest ih =>
    obtain ⟨k3, v⟩ := p
    by_cases h3 : k3 = k
    · subst h3
      simp only [aerase, if_pos rfl, alookup]
      by_cases h2 : k2 = k3
      · subst h2; simp [ih]
      · simp [h2, Ne.symm h2, ih]
    · simp only [aerase, if_neg h3, alookup, ih]
      by_cases h2 : k3 = k2
      · subst h2; simp [h3]
      · simp [h2]

theorem decrementStock_preserves_nonneg (store : Option Int) (q : Int)
    (h : 0 ≤ store.getD 0) : 0 ≤ ((decrementStock store q).2).getD 0 := by
  unfold decrementStock
  by_cases hq : q ≤ store.getD 0
  · rw [if_pos hq]
    simp only [Option.getD_some]
    omega
  · rw [if_neg hq]
    exact h

theorem applyDecrements_nonneg (qs : List Int) :
    ∀ store : Option Int, 0 ≤ store.getD 0 → 0 ≤ (applyDecrements store qs).getD 0 := by
  induction qs with
  | nil => intro store h; simpa [applyDecrements] using h
  | cons q rest ih =>
    intro store h
    have h2 := decrementStock_preserves_nonneg store q h
    simpa [applyDecrements] using ih _ h2

theorem applyDecrements_failed_id (c : Int) (qs : List Int)
    (hall : ∀ q ∈ qs, c < q) : applyDecrements (some c) qs = some c := by
  induction qs with
  | nil => rfl
  | cons q rest ih =>
    have hq : c < q := hall q (by simp)
    have hstep : (decrementStock (some c) q).2 = some c := by
      unfold decrementStock
      simp [show ¬ q ≤ c by omega]
    have heq : applyDecrements (some c) (q :: rest) = applyDecrements (some c) rest := by
      simp [applyDecrements, hstep]
    rw [heq]
    exact ih (fun x hx => hall x (by simp [hx]))

theorem LoopInv_init (u : String) (sess : Nat) (lid : String)
    (locks0 : List (Nat × SeatLockEntry)) : LoopInv u sess lid locks0 locks0 [] := by
  intro k
  exact ⟨fun h => absurd h (List.not_mem_nil k), fun _ => rfl⟩

theorem LoopInv_insert (u : String) (sess : Nat) (lid : String)
    (locks0 locks : List (Nat × SeatLockEntry)) (acc : List Nat) (sid : Nat)
    (hInv : LoopInv u sess lid locks0 locks acc)
    (hnone : alookup sid locks = none) :
    LoopInv u sess lid locks0
      ((sid, { lockId := lid, userId := u, sessionId := sess }) :: locks)
      (acc ++ [sid]) := by
  intro k
  constructor
  · intro hmem
    rcases List.mem_append.mp hmem with hk_acc | hk_sid
    · have h1 := (hInv k).1 hk_acc
      have hne : k ≠ sid := by
        intro he
        subst he
        rw [h1.2] at hnone
        exact Option.noConfusion hnone
      refine ⟨h1.1, ?_⟩
      rw [alookup_cons, if_neg (Ne.symm hne)]
      exact h1.2
    · have hk_eq : k = sid := by simpa using hk_sid
      subst hk_eq
      have hnotacc : k ∉ acc := by
        intro hin
        rw [((hInv k).1 hin).2] at hnone
        exact Option.noConfusion hnone
      have h0 := (hInv k).2 hnotacc
      refine ⟨by rw [← h0]; exact hnone, ?_⟩
      rw [alookup_cons, if_pos rfl]
  · intro hmem
    have hknacc : k ∉ acc := fun hin => hmem (List.mem_append.mpr (Or.inl hin))
    have hkne : k ≠ sid := fun he => hmem (List.mem_append.mpr (Or.inr (by simp [he])))
    rw [alookup_cons, if_neg (Ne.symm hkne)]
    exact (hInv k).2 hknacc

theorem lockLoop_inv (u : String) (sess : Nat) (lid : String)
    (locks0 : List (Nat × SeatLockEntry)) :
    ∀ (seats : List DbSeat) (locks : List (Nat × SeatLockEntry)) (acc : List Nat),
      LoopInv u sess lid locks0 locks acc →
      LoopInv u sess lid locks0
        (lockLoop u sess lid seats locks acc).2.1
        (lockLoop u sess lid seats locks acc).2.2 := by
  intro seats
  induction seats with
  | nil => intro locks acc h; simpa [lockLoop] using h
  | cons seat rest ih =>
    intro locks acc h
    cases hl : alookup seat.id locks with
    | none =>
      have h2 := LoopInv_insert u sess lid locks0 locks acc seat.id h hl
      simpa [lockLoop, hl] using ih _ _ h2
    | some entry =>
      by_cases he : entry.userId = u
      · simpa [lockLoop, hl, he] using ih _ _ h
      · simpa [lockLoop, hl, he] using h

theorem lockLoop_conflict (u : String) (sess : Nat) (lid : String)
    (locks0 : List (Nat × SeatLockEntry)) :
    ∀ (seats : List DbSeat) (locks : List (Nat × SeatLockEntry)) (acc : List Nat),
      LoopInv u sess lid locks0 locks acc →
      (∃ s ∈ seats, ∃ e, alookup s.id locks0 = some e ∧ e.userId ≠ u) →
      (lockLoop u sess lid seats locks acc).1 = false := by
  intro seats
  induction seats with
  | nil =>
    intro locks acc _ hconf
    rcases hconf with ⟨s, hs, _⟩
    exact absurd hs (List.not_mem_nil s)
  | cons seat rest ih =>
    intro locks acc hInv hconf
    cases hl : alookup seat.id locks with
    | none =>
      have hseatnone : alookup seat.id locks0 = none := by
        by_cases hacc : seat.id ∈ acc
        · exact ((hInv seat.id).1 hacc).1
        · rw [← (hInv seat.id).2 hacc]; exact hl
      have hconf2 : ∃ s ∈ rest, ∃ e, alookup s.id locks0 = some e ∧ e.userId ≠ u := by
        rcases hconf with ⟨s, hs, e, he, hne⟩
        rcases List.mem_cons.mp hs with rfl | hs2
        · rw [hseatnone] at he; exact Option.noConfusion he
        · exact ⟨s, hs2, e, he, hne⟩
      have hInv2 := LoopInv_insert u sess lid locks0 locks acc seat.id hInv hl
      simpa [lockLoop, hl] using ih _ _ hInv2 hconf2
    | some entry =>
      by_cases he : entry.userId = u
      · have hconf2 : ∃ s ∈ rest, ∃ e, alookup s.id locks0 = some e ∧ e.userId ≠ u := by
          rcases hconf with ⟨s, hs, e2, he2, hne2⟩
          rcases List.mem_cons.mp hs with rfl | hs2
          · by_cases hacc : s.id ∈ acc
            · rw [((hInv s.id).1 hacc).1] at he2
              exact Option.noConfusion he2
            · rw [← (hInv s.id).2 hacc, hl] at he2
              cases he2
              exact absurd he hne2
          · exact ⟨s, hs2, e2, he2, hne2⟩
        simpa [lockLoop, hl, he] using ih _ _ hInv hconf2
      · simp [lockLoop, hl, he]

theorem lockLoop_allHeld (u : String) (sess : Nat) (lid : String) :
    ∀ (seats : List DbSeat) (locks : List (Nat × SeatLockEntry)) (acc : List Nat),
      (∀ s ∈ seats, ∃ e, alookup s.id locks = some e ∧ e.userId = u) →
      lockLoop u sess lid seats locks acc = (true, locks, acc) := by
  intro seats
  induction seats with
  | nil => intro locks acc _; rfl
  | cons seat rest ih =>
    intro locks acc hall
    rcases hall seat (by simp) with ⟨e, he, heu⟩
    have htail : ∀ s ∈ rest, ∃ e2, alookup s.id locks = some e2 ∧ e2.userId = u :=
      fun s hs => hall s (by simp [hs])
    simpa [lockLoop, he, heu] using ih _ _ htail

theorem alookup_rollbackLocks (k : Nat) :
    ∀ (acc : List Nat) (locks : List (Nat × SeatLockEntry)),
      alookup k (rollbackLocks acc locks) =
        if k ∈ acc then none else alookup k locks := by
  intro acc
  induction acc with
  | nil => intro locks; simp [rollbackLocks]
  | cons sid rest ih =>
    intro locks
    rw [rollbackLocks, ih, alookup_aerase]
    by_cases h1 : k ∈ rest
    · simp [h1]
    · by_cases h2 : k = sid
      · simp [h1, h2]
      · simp [h1, h2]

theorem lockAttempt_conflict (db : Db) (st : RedisState) (u : String) (sess : Nat)
    (seatIds : List Nat) (exp : Int) (lid : String) (seats : List DbSeat)
    (hconf : ∃ s ∈ seats, ∃ e, alookup s.id st.seatLocks = some e ∧ e.userId ≠ u) :
    (lockAttempt db st u sess seatIds exp lid seats).1 = .error .SEAT_LOCKED ∧
    (∀ k, alookup k (lockAttempt db st u sess seatIds exp lid seats).2.1.seatLocks =
      alookup k st.seatLocks) ∧
    (lockAttempt db st u sess seatIds exp lid seats).2.1.userLocks = st.userLocks ∧
    (lockAttempt db st u sess seatIds exp lid seats).2.2 = db := by
  have hbase := LoopInv_init u sess lid st.seatLocks
  have habort := lockLoop_conflict u sess lid st.seatLocks seats st.seatLocks [] hbase hconf
  have hinv := lockLoop_inv u sess lid st.seatLocks seats st.seatLocks [] hbase
  have hred : lockAttempt db st u sess seatIds exp lid seats =
      (.error .SEAT_LOCKED,
       { seatLocks := rollbackLocks (lockLoop u sess lid seats st.seatLocks []).2.2
           (lockLoop u sess lid seats st.seatLocks []).2.1,
         userLocks := st.userLocks },
       db) := by
    simp only [lockAttempt]
    rw [habort]
    simp
  rw [hred]
  refine ⟨rfl, ?_, rfl, rfl⟩
  intro k
  rw [alookup_rollbackLocks]
  by_cases hk : k ∈ (lockLoop u sess lid seats st.seatLocks []).2.2
  · rw [if_pos hk]
    exact (((hinv k).1 hk).1).symm
  · rw [if_neg hk]
    exact (hinv k).2 hk

theorem lockAttempt_allHeld (db : Db) (st : RedisState) (u : String) (sess : Nat)
    (seatIds : List Nat) (exp : Int) (lid : String) (seats : List DbSeat)
    (hall : ∀ s ∈ seats, ∃ e, alookup s.id st.seatLocks = some e ∧ e.userId = u) :
    lockAttempt db st u sess seatIds exp lid seats =
      (.ok { lockId := lid, seats := seats.map seatDisplay, expiresAt := exp },
       { seatLocks := st.seatLocks,
         userLocks := hsetUserLock u lid
           { sessionId := sess, seatIds := seatIds, expiresAt := exp } st.userLocks },
       db) := by
  have hrun := lockLoop_allHeld u sess lid seats st.seatLocks [] hall
  simp only [lockAttempt]
  rw [hrun]
  simp [applyLockUpdate]

/-- C1: an `acquireLocks` (`lockSeats`) call that passes the session,
seat and `maxPerOrder` validations and finds some requested seat locked
by a different owner fails `SEAT_LOCKED`, and after the rollback the
seat-lock store is pointwise unchanged: every entry created during this
call is deleted, while entries the caller held from a prior call and
entries owned by other users are untouched; the user-lock index and the
persisted seat rows are also unchanged. -/
theorem C1_seat_locked_rollback_exact (db : Db) (st : RedisState) (now : Int)
    (lockId userId : String) (sessionId : Nat) (seatIds : List Nat)
    (session : DbSession) (seat0 : DbSeat) (rest : List DbSeat)
    (hsess : db.sessions.find? (fun s => s.id == sessionId) = some session)
    (hsale : saleWindowCheck now session.saleStartAt session.saleEndAt = none)
    (hload : loadSeats db sessionId seatIds = seat0 :: rest)
    (hlen : (seat0 :: rest).length = seatIds.length)
    (hmax : ¬ seat0.ticketType.maxPerOrder < seatIds.length)
    (hconf : ∃ s ∈ seat0 :: rest, ∃ e,
        alookup s.id st.seatLocks = some e ∧ e.userId ≠ userId) :
    (lockSeats db st now lockId userId sessionId seatIds).1 = .error .SEAT_LOCKED ∧
    (∀ k, alookup k (lockSeats db st now lockId userId sessionId seatIds).2.1.seatLocks =
      alookup k st.seatLocks) ∧
    (lockSeats db st now lockId userId sessionId seatIds).2.1.userLocks = st.userLocks ∧
    (lockSeats db st now lockId userId sessionId seatIds).2.2 = db := by
  have hstep : lockSeats db st now lockId userId sessionId seatIds =
      lockAttempt db st userId sessionId seatIds
        (now + lockDurationSeconds * 1000) lockId (seat0 :: rest) := by
    simp [lockSeats, lockSeatsChecked, hsess, hsale, hload, hlen, hmax]
  rw [hstep]
  exact lockAttempt_conflict db st userId sessionId seatIds
    (now + lockDurationSeconds * 1000) lockId (seat0 :: rest) hconf

/-- C2: a second `acquireLocks` call by an owner on seats it already
holds (every loaded seat's lock entry names this owner) succeeds with a
lock receipt: every create-if-absent failure is classified as
already-held, no abort occurs, the seat-lock store is unchanged, and the
new receipt is indexed under the fresh lockId. -/
theorem C2_idempotent_relock (db : Db) (st : RedisState) (now : Int)
    (lockId userId : String) (sessionId : Nat) (seatIds : List Nat)
    (session : DbSession) (seat0 : DbSeat) (rest : List DbSeat)
    (hsess : db.sessions.find? (fun s => s.id == sessionId) = some session)
    (hsale : saleWindowCheck now session.saleStartAt session.saleEndAt = none)
    (hload : loadSeats db sessionId seatIds = seat0 :: rest)
    (hlen : (seat0 :: rest).length = seatIds.length)
    (hmax : ¬ seat0.ticketType.maxPerOrder < seatIds.length)
    (hall : ∀ s ∈ seat0 :: rest, ∃ e,
        alookup s.id st.seatLocks = some e ∧ e.userId = userId) :
    lockSeats db st now lockId userId sessionId seatIds =
      (.ok { lockId := lockId, seats := (seat0 :: rest).map seatDisplay,
             expiresAt := now + lockDurationSeconds * 1000 },
       { seatLocks := st.seatLocks,
         userLocks := hsetUserLock userId lockId
           { sessionId := sessionId, seatIds := seatIds,
             expiresAt := now + lockDurationSeconds * 1000 } st.userLocks },
       db) := by
  have hstep : lockSeats db st now lockId userId sessionId seatIds =
      lockAttempt db st userId sessionId seatIds
        (now + lockDurationSeconds * 1000) lockId (seat0 :: rest) := by
    simp [lockSeats, lockSeatsChecked, hsess, hsale, hload, hlen, hmax]
  rw [hstep]
  exact lockAttempt_allHeld db st userId sessionId seatIds
    (now + lockDurationSeconds * 1000) lockId (seat0 :: rest) hall

/-- C3: a `lockSeats` call requesting more seat ids than the first
loaded seat's ticket-type `maxPerOrder` fails `EXCEED_LIMIT` with the
shared store and the persisted store returned exactly as given: no
seat-lock entry, seat row or user-lock index entry is touched. -/
theorem C3_exceed_limit_no_side_effects (db : Db) (st : RedisState) (now : Int)
    (lockId userId : String) (sessionId : Nat) (seatIds : List Nat)
    (session : DbSession) (seat0 : DbSeat) (rest : List DbSeat)
    (hsess : db.sessions.find? (fun s => s.id == sessionId) = some session)
    (hsale : saleWindowCheck now session.saleStartAt session.saleEndAt = none)
    (hload : loadSeats db sessionId seatIds = seat0 :: rest)
    (hlen : (seat0 :: rest).length = seatIds.length)
    (hover : seat0.ticketType.maxPerOrder < seatIds.length) :
    lockSeats db st now lockId userId sessionId seatIds =
      (.error .EXCEED_LIMIT, st, db) := by
  simp [lockSeats, lockSeatsChecked, hsess, hsale, hload, hlen, hover]

/-- C4: `releaseLocks` (`unlockSeats`) is overall-idempotent per
(ownerId, lockId): on a live index entry the first call succeeds and
removes the entry, the second call on the resulting state fails
`LOCK_NOT_FOUND` without further changes, and any call whose
(ownerId, lockId) has no index entry fails `LOCK_NOT_FOUND`. -/
theorem C4_release_idempotent (db : Db) (st : RedisState) (userId lockId : String)
    (entry : UserLockEntry)
    (hlive : alookup (userId, lockId) st.userLocks = some entry) :
    (unlockSeats db st userId lockId).1 = .ok () ∧
    alookup (userId, lockId) (unlockSeats db st userId lockId).2.1.userLocks = none ∧
    unlockSeats (unlockSeats db st userId lockId).2.2
        (unlockSeats db st userId lockId).2.1 userId lockId =
      (.error .LOCK_NOT_FOUND,
       (unlockSeats db st userId lockId).2.1,
       (unlockSeats db st userId lockId).2.2) ∧
    (∀ (db2 : Db) (st2 : RedisState), alookup (userId, lockId) st2.userLocks = none →
      unlockSeats db2 st2 userId lockId = (.error .LOCK_NOT_FOUND, st2, db2)) := by
  have hmiss : ∀ (db2 : Db) (st2 : RedisState),
      alookup (userId, lockId) st2.userLocks = none →
      unlockSeats db2 st2 userId lockId = (.error .LOCK_NOT_FOUND, st2, db2) := by
    intro db2 st2 h2
    simp [unlockSeats, h2]
  have hred : unlockSeats db st userId lockId =
      (.ok (),
       { seatLocks := releaseLoop userId lockId entry.seatIds st.seatLocks,
         userLocks := aerase (userId, lockId) st.userLocks },
       { db with seats := applyUnlockUpdate entry.seatIds userId db.seats }) := by
    simp [unlockSeats, hlive]
  have hgone : alookup (userId, lockId)
      (unlockSeats db st userId lockId).2.1.userLocks = none := by
    rw [hred]
    rw [alookup_aerase]
    simp
  refine ⟨by rw [hred], hgone, ?_, hmiss⟩
  exact hmiss _ _ hgone

/-- C5: `findConsecutiveSeats` groups by row label, sorts each row's
seats by numeric (`parseInt`) seat number ascending, visits rows in
first-encounter order and returns the earliest strictly-consecutive
window of `quantity` seats.  Conjuncts: (1) the claim's instance — row
"A" with seats 1..10 and quantity 3 yields exactly seats 1, 2, 3;
(2) rows are visited in first-encounter order (row "B", seen first,
wins even though row "A" sorts before it); (3) seats are sorted
numerically within a row before the scan; (4) the comparison is numeric,
not lexical ("9", "10" is consecutive). -/
theorem C5_findConsecutiveSeats_first_window :
    findConsecutiveSeats rowA10 3 = [⟨1, "A", "1"⟩, ⟨2, "A", "2"⟩, ⟨3, "A", "3"⟩] ∧
    findConsecutiveSeats [⟨1, "B", "5"⟩, ⟨2, "B", "6"⟩, ⟨3, "A", "1"⟩, ⟨4, "A", "2"⟩] 2 =
      [⟨1, "B", "5"⟩, ⟨2, "B", "6"⟩] ∧
    findConsecutiveSeats [⟨1, "A", "3"⟩, ⟨2, "A", "1"⟩, ⟨3, "A", "2"⟩] 2 =
      [⟨2, "A", "1"⟩, ⟨3, "A", "2"⟩] ∧
    findConsecutiveSeats [⟨1, "A", "9"⟩, ⟨2, "A", "10"⟩] 2 =
      [⟨1, "A", "9"⟩, ⟨2, "A", "10"⟩] := by
  refine ⟨?_, ?_, ?_, ?_⟩ <;> rfl

/-- C6: `decrementStock` returns and stores `c - qty` when the counter
`c` covers `qty`, returns the sentinel -1 leaving the counter untouched
when it does not, never drives a non-negative counter negative under any
call sequence, and is left invariant by any sequence of failed attempts. -/
theorem C6_decrementStock_safe (c qty : Int) (hc : 0 ≤ c) (hq : 0 ≤ qty) :
    (qty ≤ c → decrementStock (some c) qty = (c - qty, some (c - qty))) ∧
    (c < qty → decrementStock (some c) qty = (-1, some c)) ∧
    (∀ qs : List Int, 0 ≤ (applyDecrements (some c) qs).getD 0) ∧
    (∀ qs : List Int, (∀ q ∈ qs, c < q) → applyDecrements (some c) qs = some c) := by
  refine ⟨?_, ?_, ?_, ?_⟩
  · intro hle
    simp only [decrementStock, Option.getD_some]
    rw [if_pos hle]
  · intro hlt
    simp only [decrementStock, Option.getD_some]
    rw [if_neg (by omega)]
  · intro qs
    exact applyDecrements_nonneg qs (some c) (by simpa using hc)
  · intro qs hall
    exact applyDecrements_failed_id c qs hall

/-- C7 counterexample: the claim says the sale window is half-open
(`now = saleEnd` fails `SALE_ENDED`), but the code's check is
`now &gt; saleEndAt`, so a call at exactly the sale end passes the
validation and succeeds.  Session 1 of `dbA` has sale end 100; a lock
call at `now = 100` returns a receipt, not `SALE_ENDED`. -/
theorem C7_counterexample_at_sale_end :
    saleWindowCheck 100 0 (some 100) = none ∧
    (lockSeats dbA stEmpty 100 "L1" "u1" 1 [1]).1 =
      .ok { lockId := "L1", seats := [⟨1, "A", "1", 1, "VIP", 5800⟩],
            expiresAt := 600100 } ∧
    (lockSeats dbA stEmpty 100 "L1" "u1" 1 [1]).1 ≠ .error .SALE_ENDED := by
  refine ⟨rfl, rfl, ?_⟩
  intro h
  rw [show (lockSeats dbA stEmpty 100 "L1" "u1" 1 [1]).1 =
      Except.ok { lockId := "L1", seats := [⟨1, "A", "1", 1, "VIP", 5800⟩],
                  expiresAt := 600100 } from rfl] at h
  exact Except.noConfusion h

/-- C7 amended: `lockSeats` validates the sale window as the closed
interval [saleStart, saleEnd]: with a sale end set it fails
`SALE_NOT_STARTED` exactly when `now &lt; saleStart`, fails `SALE_ENDED`
exactly when `now &gt; saleEnd`, and passes exactly when
`saleStart ≤ now ≤ saleEnd`; in particular a call at `now = saleEnd`
passes the validation. -/
theorem C7_sale_window_closed_interval (now s e : Int) :
    (saleWindowCheck now s (some e) = some .SALE_NOT_STARTED ↔ now < s) ∧
    (saleWindowCheck now s (some e) = some .SALE_ENDED ↔ s ≤ now ∧ e < now) ∧
    (saleWindowCheck now s (some e) = none ↔ s ≤ now ∧ now ≤ e) ∧
    saleWindowCheck e s (some e) ≠ some .SALE_ENDED := by
  have h4 : saleWindowCheck e s (some e) ≠ some .SALE_ENDED := by
    unfold saleWindowCheck
    by_cases h3 : e < s
    · simp [h3]
    · simp [h3]
  refine ⟨?_, ?_, ?_, h4⟩ <;> unfold saleWindowCheck <;> by_cases h1 : now < s
  · simp [h1]
  · by_cases h2 : e < now
    · simp [h1, h2] <;> omega
    · simp [h1, h2] <;> omega
  · simp [h1] <;> omega
  · by_cases h2 : e < now
    · simp [h1, h2] <;> omega
    · simp [h1, h2] <;> omega
  · simp [h1] <;> omega
  · by_cases h2 : e < now
    · simp [h1, h2] <;> omega
    · simp [h1, h2] <;> omega

/-- C8: for an existing session, `getAvailability` returns one row per
ticket type with `total = totalQuantity`, `reserved = reservedQuantity`
and `available = totalQuantity - reservedQuantity`, computed from the
persisted counters alone — the Redis lock state is not an input of the
function. -/
theorem C8_availability_from_counters (db : Db) (sessionId : Nat)
    (session : DbSession)
    (hsess : db.sessions.find? (fun s => s.id == sessionId) = some session) :
    getAvailability db sessionId = .ok (session.ticketTypes.map availRow) ∧
    ∀ tt ∈ session.ticketTypes,
      (availRow tt).total = tt.totalQuantity ∧
      (availRow tt).reserved = tt.reservedQuantity ∧
      (availRow tt).available = tt.totalQuantity - tt.reservedQuantity := by
  constructor
  · simp [getAvailability, hsess]
  · intro tt _
    exact ⟨rfl, rfl, rfl⟩

/-- C10: `lockSeats` with an empty `seatIds` list, a valid session and
an open sale window reaches the unguarded `seats[0]` access: the seat
query returns 0 rows, the count check 0 = 0 passes, and the
`maxPerOrder` check reads the first element of the empty list — an
untagged runtime fault distinct from every specified error outcome,
with both stores unchanged. -/
theorem C10_empty_seatIds_untagged_fault (db : Db) (st : RedisState) (now : Int)
    (lockId userId : String) (sessionId : Nat) (session : DbSession)
    (hsess : db.sessions.find? (fun s => s.id == sessionId) = some session)
    (hsale : saleWindowCheck now session.saleStartAt session.saleEndAt = none) :
    lockSeats db st now lockId userId sessionId [] = (.error .jsTypeError, st, db) ∧
    ∀ e ∈ [SvcError.SESSION_NOT_FOUND, .SALE_NOT_STARTED, .SALE_ENDED, .INVALID_SEATS,
           .EXCEED_LIMIT, .SEAT_LOCKED, .LOCK_NOT_FOUND],
      SvcError.jsTypeError ≠ e := by
  constructor
  · have hload : loadSeats db sessionId [] = [] := by
      simp [loadSeats]
    simp [lockSeats, lockSeatsChecked, hsess, hsale, hload]
  · decide

/-- C9: an owner holding a seat under lock `L1` who re-acquires it under
a fresh lockId `L2` (the create-if-absent fails, the stored entry keeps
`L1`) and then releases `L2` ends with: the `L2` index entry removed and
the persisted seat row reverted to available, but the seat's `SeatLock`
entry still present with lockId `L1` — the owner-and-lockId-checked
delete of `releaseLocks` refuses to delete it, so it survives until its
own TTL expires. -/
theorem C9_release_of_relock_keeps_seat_lock
    (u L1 L2 : String) (hne : L1 ≠ L2)
    (sess sid : Nat) (row num : String) (tt : TicketTypeInfo)
    (saleStart : Int) (saleEndOpt : Option Int) (tts : List TicketTypeCounters)
    (idx1 : UserLockEntry) (t1 now : Int)
    (hsale : saleWindowCheck now saleStart saleEndOpt = none)
    (hmax : ¬ tt.maxPerOrder < 1) :
    lockSeats ⟨[⟨sess, saleStart, saleEndOpt, tts⟩],
               [⟨sid, row, num, sess, tt, .locked, some u, some t1⟩]⟩
        ⟨[(sid, ⟨L1, u, sess⟩)], [((u, L1), idx1)]⟩ now L2 u sess [sid] =
      (.ok { lockId := L2,
             seats := [⟨sid, row, num, tt.id, tt.name, tt.price⟩],
             expiresAt := now + lockDurationSeconds * 1000 },
       ⟨[(sid, ⟨L1, u, sess⟩)],
        [((u, L2), ⟨sess, [sid], now + lockDurationSeconds * 1000⟩), ((u, L1), idx1)]⟩,
       ⟨[⟨sess, saleStart, saleEndOpt, tts⟩],
        [⟨sid, row, num, sess, tt, .locked, some u, some t1⟩]⟩) ∧
    unlockSeats ⟨[⟨sess, saleStart, saleEndOpt, tts⟩],
                 [⟨sid, row, num, sess, tt, .locked, some u, some t1⟩]⟩
        ⟨[(sid, ⟨L1, u, sess⟩)],
         [((u, L2), ⟨sess, [sid], now + lockDurationSeconds * 1000⟩), ((u, L1), idx1)]⟩ u L2 =
      (.ok (),
       ⟨[(sid, ⟨L1, u, sess⟩)], [((u, L1), idx1)]⟩,
       ⟨[⟨sess, saleStart, saleEndOpt, tts⟩],
        [⟨sid, row, num, sess, tt, .available, none, none⟩]⟩) ∧
    alookup sid [(sid, (⟨L1, u, sess⟩ : SeatLockEntry))] = some ⟨L1, u, sess⟩ := by
  refine ⟨?_, ?_, by simp [alookup]⟩
  · simp [lockSeats, lockSeatsChecked, lockAttempt, lockLoop, loadSeats, hsale, hmax,
          alookup, hsetUserLock, aerase, applyLockUpdate, List.find?, seatDisplay,
          Prod.mk.injEq, hne, Ne.symm hne]
  · simp [unlockSeats, releaseLoop, applyUnlockUpdate, alookup, aerase,
          Prod.mk.injEq, hne, Ne.symm hne]

/-- Witness for C1: user `u1` requests seats 1 and 2 of session 1 while
seat 2 is locked by `v1`; the call fails `SEAT_LOCKED` and the store is
unchanged. -/
theorem C1_witness :
    (lockSeats dbA stOther 50 "L1" "u1" 1 [1, 2]).1 = .error .SEAT_LOCKED ∧
    (∀ k, alookup k (lockSeats dbA stOther 50 "L1" "u1" 1 [1, 2]).2.1.seatLocks =
      alookup k stOther.seatLocks) ∧
    (lockSeats dbA stOther 50 "L1" "u1" 1 [1, 2]).2.2 = dbA :=
  have h := C1_seat_locked_rollback_exact dbA stOther 50 "L1" "u1" 1 [1, 2]
    sessA seatA1 [seatA2] rfl rfl rfl rfl (by decide)
    ⟨seatA2, by decide, otherEntry, rfl, by decide⟩
  ⟨h.1, h.2.1, h.2.2.2⟩

/-- Witness for C2: user `u1` re-requests seats 1 and 2 it already holds
under lock `L0`; the call succeeds with a fresh receipt `L9`. -/
theorem C2_witness :
    lockSeats dbA stOwn 50 "L9" "u1" 1 [1, 2] =
      (.ok { lockId := "L9", seats := (seatA1 :: [seatA2]).map seatDisplay,
             expiresAt := 50 + lockDurationSeconds * 1000 },
       { seatLocks := stOwn.seatLocks,
         userLocks := hsetUserLock "u1" "L9"
           { sessionId := 1, seatIds := [1, 2],
             expiresAt := 50 + lockDurationSeconds * 1000 } stOwn.userLocks },
       dbA) :=
  C2_idempotent_relock dbA stOwn 50 "L9" "u1" 1 [1, 2] sessA seatA1 [seatA2]
    rfl rfl rfl rfl (by decide)
    (by
      intro s hs
      rcases List.mem_cons.mp hs with rfl | hs2
      · exact ⟨ownEntry, rfl, rfl⟩
      · rcases List.mem_singleton.mp hs2 with rfl
        exact ⟨ownEntry, rfl, rfl⟩)

/-- Witness for C3: requesting 2 seats with `maxPerOrder = 1` fails
`EXCEED_LIMIT` and changes nothing. -/
theorem C3_witness :
    lockSeats dbSmall stEmpty 50 "L1" "u1" 1 [1, 2] =
      (.error .EXCEED_LIMIT, stEmpty, dbSmall) :=
  C3_exceed_limit_no_side_effects dbSmall stEmpty 50 "L1" "u1" 1 [1, 2] sessA
    ⟨1, "A", "1", 1, ttSmall, .available, none, none⟩
    [⟨2, "A", "2", 1, ttSmall, .available, none, none⟩]
    rfl rfl rfl rfl (by decide)

/-- Witness for C4: releasing the live lock (`u1`, `L0`) succeeds and a
second release of the same lockId fails `LOCK_NOT_FOUND`. -/
theorem C4_witness :
    (unlockSeats dbA stIdx "u1" "L0").1 = .ok () ∧
    alookup ("u1", "L0") (unlockSeats dbA stIdx "u1" "L0").2.1.userLocks = none ∧
    unlockSeats (unlockSeats dbA stIdx "u1" "L0").2.2
        (unlockSeats dbA stIdx "u1" "L0").2.1 "u1" "L0" =
      (.error .LOCK_NOT_FOUND,
       (unlockSeats dbA stIdx "u1" "L0").2.1,
       (unlockSeats dbA stIdx "u1" "L0").2.2) :=
  have h := C4_release_idempotent dbA stIdx "u1" "L0" idxEntry rfl
  ⟨h.1, h.2.1, h.2.2.1⟩

/-- Witness for C6: `decrementStock` succeeds on a sufficient counter
and fails on an insufficient one without mutating it. -/
theorem C6_witness :
    decrementStock (some 5) 3 = (5 - 3, some (5 - 3)) ∧
    decrementStock (some 2) 5 = (-1, some 2) :=
  ⟨(C6_decrementStock_safe 5 3 (by decide) (by decide)).1 (by decide),
   (C6_decrementStock_safe 2 5 (by decide) (by decide)).2.1 (by decide)⟩

/-- Witness for C8: the availability view of session 1 of `dbA`. -/
theorem C8_witness :
    getAvailability dbA 1 = .ok (sessA.ticketTypes.map availRow) :=
  (C8_availability_from_counters dbA 1 sessA rfl).1

/-- Witness for C9: after re-acquiring seat 7 under `L2` and releasing
`L2`, the seat row is reverted but the `L1` seat-lock entry survives. -/
theorem C9_witness :
    ("L1" : String) ≠ "L2" ∧
    unlockSeats ⟨[⟨1, 0, some 100, []⟩],
                 [⟨7, "A", "1", 1, ttA, .locked, some "u1", some 600100⟩]⟩
        ⟨[(7, ⟨"L1", "u1", 1⟩)],
         [(("u1", "L2"), ⟨1, [7], 50 + lockDurationSeconds * 1000⟩),
          (("u1", "L1"), idxL1)]⟩ "u1" "L2" =
      (.ok (),
       ⟨[(7, ⟨"L1", "u1", 1⟩)], [(("u1", "L1"), idxL1)]⟩,
       ⟨[⟨1, 0, some 100, []⟩],
        [⟨7, "A", "1", 1, ttA, .available, none, none⟩]⟩) :=
  ⟨by decide,
   (C9_release_of_relock_keeps_seat_lock "u1" "L1" "L2" (by decide) 1 7 "A" "1"
     ttA 0 (some 100) [] idxL1 600100 50 rfl (by decide)).2.1⟩

/-- Witness for C10: an empty seat-id list against the valid session 1
ends in the untagged fault with both stores unchanged. -/
theorem C10_witness :
    lockSeats dbA stEmpty 50 "L1" "u1" 1 [] = (.error .jsTypeError, stEmpty, dbA) :=
  (C10_empty_seatIds_untagged_fault dbA stEmpty 50 "L1" "u1" 1 sessA rfl rfl).1

end TicketSystem
